import Mathlib

/-!
Shallow embedding of the MDAL mesh data model
(src/external/mdal/mdal_data_model.hpp).

The repository file under verification is a pure interface header:
it declares the classes `Dataset`, `Dataset2D`, `Dataset3D`,
`DatasetGroup`, `Mesh`, `MeshVertexIterator`, `MeshFaceIterator`
and the value types `BBox`, `Statistics`, `Metadata`, together with
default member initializers, but contains no member-function bodies
(those live in an implementation file that is not part of the sources).
Wherever a claim depends on a member-function body, the definition
below is therefore modelled from the specification's description of
that member, and is marked `Modelled from the spec:` in its doc
comment.  Default field values, which the header does fix through
in-class initializers, are taken directly from the header.

`double` values carried by `Statistics` and timestamps are embedded as
rationals, with the quiet-NaN "unset" sentinel embedded as `none` of an
`Option`; no floating-point arithmetic is performed by the model (the
header only stores, compares and takes min/max of these values).
-/

namespace MDAL

/-- The data-location enumeration `MDAL_DataLocation` from `mdal.h`
(referenced by `DatasetGroup::dataLocation`). -/
inductive MDAL_DataLocation where
  | DataOnVertices2D
  | DataOnFaces2D
  | DataOnVolumes3D
deriving DecidableEq, Repr

/-- `Statistics` (header lines 34-38): a minimum and a maximum, each
defaulting to the quiet-NaN "unset" sentinel, embedded as `none`. -/
structure Statistics where
  minimum : Option ℚ := none
  maximum : Option ℚ := none
deriving DecidableEq, Repr

/-- `Statistics` invariant named by the spec: when both fields are set
(non-sentinel), the minimum does not exceed the maximum. -/
def Statistics.consistent (s : Statistics) : Prop :=
  match s.minimum, s.maximum with
  | some a, some b => a ≤ b
  | _, _ => True

/-- A `Statistics` value is saturated when its two fields are either both
set or both unset (a driver reporting real statistics sets both). -/
def Statistics.saturated (s : Statistics) : Prop :=
  s.minimum = none ↔ s.maximum = none

instance (s : Statistics) : Decidable s.consistent := by
  unfold Statistics.consistent
  exact match s.minimum, s.maximum with
  | some a, some b => inferInstanceAs (Decidable (a ≤ b))
  | some _, none => inferInstanceAs (Decidable True)
  | none, _ => inferInstanceAs (Decidable True)

instance (s : Statistics) : Decidable s.saturated :=
  inferInstanceAs (Decidable (_ ↔ _))

/-- `Metadata` (header line 40): an ordered sequence of key/value string
pairs, keys not required to be unique. -/
abbrev Metadata := List (String × String)

/-- Modelled from the spec: `DatasetGroup::getMetadata` (body absent from
the sources) returns the value of the first pair whose key matches, or an
empty string when no pair matches. -/
def getMetadata (md : Metadata) (key : String) : String :=
  match md with
  | [] => ""
  | p :: rest => if p.1 = key then p.2 else getMetadata rest key

/-- Modelled from the spec: `DatasetGroup::setMetadata` (body absent from
the sources) updates the value of the first pair whose key matches, or
appends a new pair when no pair matches. -/
def setMetadata (md : Metadata) (key val : String) : Metadata :=
  match md with
  | [] => [(key, val)]
  | p :: rest => if p.1 = key then (key, val) :: rest else p :: setMetadata rest key val

/-- The payload that distinguishes `Dataset2D` from `Dataset3D`
(header lines 94-129): `Dataset2D` carries no volume fields, while
`Dataset3D` fixes at construction its total volume count, its maximum
vertical level count, and (abstractly) the number of face columns its
per-face volume accessors range over. -/
inductive DatasetKind where
  | twoD
  | threeD (volumes maxVerticalLevels columns : Nat)
deriving DecidableEq, Repr

/-- `Dataset` (header lines 42-92) as a state record.  The private fields
and their in-class default initializers (`mIsValid = true`,
`mSupportsActiveFlag = false`) come from the header; `valuesCount` stands
for the entity total the dataset delegates to its parent group/mesh
(vertex or face count, per the group's data location), and `facesCount`
for the parent mesh's face count, which the per-face `activeData`
accessor ranges over. -/
structure Dataset where
  time : ℚ := 0
  isValid : Bool := true
  supportsActiveFlag : Bool := false
  statistics : Statistics := {}
  kind : DatasetKind := .twoD
  valuesCount : Nat := 0
  facesCount : Nat := 0
deriving DecidableEq, Repr

/-- `Dataset::volumesCount`: 0 for a 2D dataset (modelled from the spec:
`Dataset2D` must report zero extent), the fixed construction value for a
3D dataset. -/
def Dataset.volumesCount (d : Dataset) : Nat :=
  match d.kind with
  | .twoD => 0
  | .threeD v _ _ => v

/-- `Dataset::maximumVerticalLevelsCount`: 0 for a 2D dataset, the fixed
construction value for a 3D dataset. -/
def Dataset.maximumVerticalLevelsCount (d : Dataset) : Nat :=
  match d.kind with
  | .twoD => 0
  | .threeD _ m _ => m

/-- The number of face columns a per-face volume accessor of the dataset
ranges over: 0 for a 2D dataset, the construction value for 3D. -/
def Dataset.columnsCount (d : Dataset) : Nat :=
  match d.kind with
  | .twoD => 0
  | .threeD _ _ c => c

/-- Modelled from the spec: the bounded-buffer contract shared by all
data-pull operations (the operation bodies are pure virtual in the
header).  `op(indexStart, count, buffer)` reads up to `count` entities
starting at `indexStart` out of `total` available entities and returns
the number actually written: 0 when `indexStart` is past the end,
otherwise the requested `count` truncated to the remaining tail. -/
def boundedFill (total indexStart count : Nat) : Nat :=
  if total ≤ indexStart then 0 else min count (total - indexStart)

/-- The tail-truncation contract of a buffer-fill operation over `n`
entities: a start at or past the end writes nothing, and a request
overrunning the end from inside writes exactly the remaining tail. -/
def tailContract (op : Nat → Nat → Nat) (n : Nat) : Prop :=
  ∀ indexStart count : Nat,
    (n ≤ indexStart → op indexStart count = 0) ∧
    (indexStart < n → n < indexStart + count →
      op indexStart count = n - indexStart)

/-- Modelled from the spec: `Dataset::scalarData` returns the number of
entities written by a bounded fill over `valuesCount()` entities. -/
def Dataset.scalarData (d : Dataset) (indexStart count : Nat) : Nat :=
  boundedFill d.valuesCount indexStart count

/-- Modelled from the spec: `Dataset::vectorData` (2 components per
entity) returns the number of entities written by a bounded fill over
`valuesCount()` entities. -/
def Dataset.vectorData (d : Dataset) (indexStart count : Nat) : Nat :=
  boundedFill d.valuesCount indexStart count

/-- Modelled from the spec: `Dataset::activeData` carries per-face
activity flags, so when the driver supports the active flag it performs
a bounded fill over the parent mesh's faces; a driver not supporting it
returns a count of 0. -/
def Dataset.activeData (d : Dataset) (indexStart count : Nat) : Nat :=
  if d.supportsActiveFlag then boundedFill d.facesCount indexStart count else 0

/-- Modelled from the spec: `Dataset::verticalLevelCountData` (layer
count per face column) is a bounded fill over the dataset's face
columns; zero extent for 2D. -/
def Dataset.verticalLevelCountData (d : Dataset) (indexStart count : Nat) : Nat :=
  boundedFill d.columnsCount indexStart count

/-- Modelled from the spec: `Dataset::verticalLevelData` (level
boundaries, one more than the layer count per column, flattened) is a
bounded fill over `volumesCount + columnsCount` entries; zero extent
for 2D. -/
def Dataset.verticalLevelData (d : Dataset) (indexStart count : Nat) : Nat :=
  boundedFill (d.volumesCount + d.columnsCount) indexStart count

/-- Modelled from the spec: `Dataset::faceToVolumeData` (starting volume
index per face column) is a bounded fill over the dataset's face
columns; zero extent for 2D. -/
def Dataset.faceToVolumeData (d : Dataset) (indexStart count : Nat) : Nat :=
  boundedFill d.columnsCount indexStart count

/-- Modelled from the spec: `Dataset::scalarVolumesData` is a bounded
fill over the dataset's volume cells; zero extent for 2D. -/
def Dataset.scalarVolumesData (d : Dataset) (indexStart count : Nat) : Nat :=
  boundedFill d.volumesCount indexStart count

/-- Modelled from the spec: `Dataset::vectorVolumesData` (2 components
per volume cell) is a bounded fill over the dataset's volume cells; zero
extent for 2D. -/
def Dataset.vectorVolumesData (d : Dataset) (indexStart count : Nat) : Nat :=
  boundedFill d.volumesCount indexStart count

/-- The operations declared on `Dataset` in the header (lines 72-84)
besides the read-only accessors: `setStatistics`, `setTime` and
`setSupportsActiveFlag`.  The header declares no mutator for the
validity flag. -/
inductive DatasetOp where
  | setStatistics (s : Statistics)
  | setTime (t : ℚ)
  | setSupportsActiveFlag (b : Bool)
deriving DecidableEq, Repr

/-- Modelled from the spec: the effect of each declared `Dataset`
mutator (bodies absent from the sources) — each one stores its argument
into the corresponding private field and touches nothing else; in
particular the validity flag is fixed by the driver at construction. -/
def Dataset.applyOp (d : Dataset) : DatasetOp → Dataset
  | .setStatistics s => { d with statistics := s }
  | .setTime t => { d with time := t }
  | .setSupportsActiveFlag b => { d with supportsActiveFlag := b }

/-- A sequence of `Dataset` operations applied in order. -/
def Dataset.applyOps (d : Dataset) (ops : List DatasetOp) : Dataset :=
  ops.foldl Dataset.applyOp d

/-- Pointwise minimum of two optional values, treating `none` as the
unset sentinel that the other operand wins against. -/
def optMin : Option ℚ → Option ℚ → Option ℚ
  | none, b => b
  | some a, none => some a
  | some a, some b => some (min a b)

/-- Pointwise maximum of two optional values, treating `none` as the
unset sentinel that the other operand wins against. -/
def optMax : Option ℚ → Option ℚ → Option ℚ
  | none, b => b
  | some a, none => some a
  | some a, some b => some (max a b)

/-- Modelled from the spec: the aggregate a `DatasetGroup` recomputes at
`stopEditing()` — the minimum of the minima and the maximum of the
maxima across the statistics of all contained datasets, the NaN
sentinel (`none`) standing aside. -/
def aggregateStatistics : List Statistics → Statistics
  | [] => {}
  | s :: rest =>
    let r := aggregateStatistics rest
    { minimum := optMin s.minimum r.minimum
      maximum := optMax s.maximum r.maximum }

/-- `DatasetGroup` (header lines 134-192) as a state record.  The
private-field default initializers (`mInEditMode = false`,
`mIsScalar = true`, `mDataLocation = DataOnVertices2D`) come from the
header's in-class initializers. -/
structure DatasetGroup where
  driverName : String := ""
  name : String := ""
  uri : String := ""
  metadata : Metadata := []
  datasets : List Dataset := []
  mInEditMode : Bool := false
  mIsScalar : Bool := true
  mDataLocation : MDAL_DataLocation := .DataOnVertices2D
  mStatistics : Statistics := {}
  referenceTime : ℚ := 0
deriving DecidableEq, Repr

/-- `DatasetGroup::isInEditMode`. -/
def DatasetGroup.isInEditMode (g : DatasetGroup) : Bool := g.mInEditMode

/-- `DatasetGroup::isScalar`. -/
def DatasetGroup.isScalar (g : DatasetGroup) : Bool := g.mIsScalar

/-- `DatasetGroup::dataLocation`. -/
def DatasetGroup.dataLocation (g : DatasetGroup) : MDAL_DataLocation := g.mDataLocation

/-- `DatasetGroup::statistics`. -/
def DatasetGroup.statistics (g : DatasetGroup) : Statistics := g.mStatistics

/-- Modelled from the spec: the three-argument `DatasetGroup`
constructor (body absent from the sources) stores driver name and uri
and derives the default name from the uri; every other field keeps the
header's in-class default initializer. -/
def DatasetGroup.create (driverName uri : String) : DatasetGroup :=
  { driverName := driverName, uri := uri, name := uri }

/-- Modelled from the spec: the four-argument `DatasetGroup` constructor
(body absent from the sources) additionally stores the given name;
every other field keeps the header's in-class default initializer. -/
def DatasetGroup.createNamed (driverName uri name : String) : DatasetGroup :=
  { driverName := driverName, uri := uri, name := name }

/-- Modelled from the spec: `DatasetGroup::startEditing` moves the group
into the Editing state. -/
def DatasetGroup.startEditing (g : DatasetGroup) : DatasetGroup :=
  { g with mInEditMode := true }

/-- Modelled from the spec: `DatasetGroup::stopEditing` moves the group
back to NotEditing and recomputes the aggregate statistics from the
statistics of all datasets contained at that moment. -/
def DatasetGroup.stopEditing (g : DatasetGroup) : DatasetGroup :=
  { g with mInEditMode := false
           mStatistics := aggregateStatistics (g.datasets.map Dataset.statistics) }

/-- Appending a dataset to the group's `datasets` member (a public
vector in the header, populated by drivers during loading). -/
def DatasetGroup.appendDataset (g : DatasetGroup) (d : Dataset) : DatasetGroup :=
  { g with datasets := g.datasets ++ [d] }

/-- The mutating operations available on a `DatasetGroup` in the header
(setters, metadata update, dataset append, the edit-mode transitions). -/
inductive GroupOp where
  | setName (s : String)
  | setIsScalar (b : Bool)
  | setDataLocation (l : MDAL_DataLocation)
  | setStatistics (s : Statistics)
  | setMetadata (key val : String)
  | setReferenceTime (t : ℚ)
  | appendDataset (d : Dataset)
  | startEditing
  | stopEditing
deriving DecidableEq, Repr

/-- Whether a group operation is the `setDataLocation` setter. -/
def GroupOp.isSetDataLocation : GroupOp → Bool
  | .setDataLocation _ => true
  | _ => false

/-- Modelled from the spec: the effect of each `DatasetGroup` operation
(bodies absent from the sources) — each setter stores its argument into
the corresponding private field; `setMetadata` updates-or-appends;
`startEditing`/`stopEditing` drive the edit-mode state machine, the
latter recomputing the aggregate statistics. -/
def DatasetGroup.applyOp (g : DatasetGroup) : GroupOp → DatasetGroup
  | .setName s => { g with name := s }
  | .setIsScalar b => { g with mIsScalar := b }
  | .setDataLocation l => { g with mDataLocation := l }
  | .setStatistics s => { g with mStatistics := s }
  | .setMetadata k v => { g with metadata := setMetadata g.metadata k v }
  | .setReferenceTime t => { g with referenceTime := t }
  | .appendDataset d => g.appendDataset d
  | .startEditing => g.startEditing
  | .stopEditing => g.stopEditing

/-- A sequence of `DatasetGroup` operations applied in order. -/
def DatasetGroup.applyOps (g : DatasetGroup) (ops : List GroupOp) : DatasetGroup :=
  ops.foldl DatasetGroup.applyOp g

/-- `BBox` (header lines 23-32). -/
structure BBox where
  minX : ℚ := 0
  maxX : ℚ := 0
  minY : ℚ := 0
  maxY : ℚ := 0
deriving DecidableEq, Repr

/-- `Mesh` (header lines 215-258) as a state record; the count fields
default to 0 per the header's in-class initializers and are fixed at
construction. -/
structure Mesh where
  driverName : String := ""
  verticesCount : Nat := 0
  facesCount : Nat := 0
  faceVerticesMaximumCount : Nat := 0
  extent : BBox := {}
  uri : String := ""
  crs : String := ""
  datasetGroups : List DatasetGroup := []
deriving DecidableEq, Repr

/-- Modelled from the spec: the linear scan behind `Mesh::group` (body
absent from the sources) — return the first group of the list whose
name matches, or the absence indicator (a null shared pointer, embedded
as `none`) when no group matches. -/
def firstNamed : List DatasetGroup → String → Option DatasetGroup
  | [], _ => none
  | g :: rest, n => if g.name = n then some g else firstNamed rest n

/-- Modelled from the spec (continued): `Mesh::group` as the linear scan
over the mesh's own `datasetGroups`. -/
def Mesh.group (m : Mesh) (name : String) : Option DatasetGroup :=
  firstNamed m.datasetGroups name

/-- Modelled from the spec: the state of a driver vertex iterator whose
driver does not fail (`MeshVertexIterator::next` is pure virtual in the
header) — a cursor holding the number of vertices not yet streamed. -/
structure MeshVertexIterator where
  remaining : Nat
deriving DecidableEq, Repr

/-- Modelled from the spec: `next(vertexCount, coordinates)` of a
non-failing driver writes `min vertexCount remaining` vertices into the
caller's buffer and returns that count together with the advanced
cursor; a return of 0 signals exhaustion. -/
def MeshVertexIterator.next (it : MeshVertexIterator) (vertexCount : Nat) :
    Nat × MeshVertexIterator :=
  let actual := min vertexCount it.remaining
  (actual, ⟨it.remaining - actual⟩)

/-- Modelled from the spec: the state of a driver face iterator whose
driver does not fail (`MeshFaceIterator::next` is pure virtual in the
header) — a cursor holding the number of faces not yet streamed. -/
structure MeshFaceIterator where
  remaining : Nat
deriving DecidableEq, Repr

/-- Modelled from the spec: `next(faceOffsetsBufferLen, faceOffsetsBuffer,
vertexIndicesBufferLen, vertexIndicesBuffer)` of a non-failing driver
writes `min faceOffsetsBufferLen remaining` faces and returns that count
with the advanced cursor (the caller supplies a vertex-indices buffer
large enough for the faces requested, so only the offsets capacity
bounds the chunk); a return of 0 signals exhaustion. -/
def MeshFaceIterator.next (it : MeshFaceIterator)
    (faceOffsetsBufferLen _vertexIndicesBufferLen : Nat) :
    Nat × MeshFaceIterator :=
  let actual := min faceOffsetsBufferLen it.remaining
  (actual, ⟨it.remaining - actual⟩)

/-- Modelled from the spec: `Mesh::readVertices` constructs a fresh
iterator over the full geometry. -/
def Mesh.readVertices (m : Mesh) : MeshVertexIterator :=
  ⟨m.verticesCount⟩

/-- Modelled from the spec: `Mesh::readFaces` constructs a fresh
iterator over the full geometry. -/
def Mesh.readFaces (m : Mesh) : MeshFaceIterator :=
  ⟨m.facesCount⟩

/-- The sum of the `actualCount` values returned by successive
`MeshVertexIterator.next` calls driven by the stream `reqs` of buffer
capacities, up to and including the first call that returns 0 (which
contributes nothing); `fuel` bounds the number of calls. -/
def MeshVertexIterator.drainSum : Nat → MeshVertexIterator → (Nat → Nat) → Nat
  | 0, _, _ => 0
  | fuel + 1, it, reqs =>
    if (it.next (reqs 0)).1 = 0 then 0
    else (it.next (reqs 0)).1 + drainSum fuel (it.next (reqs 0)).2 (fun i => reqs (i + 1))

/-- The sum of the `actualCount` values returned by successive
`MeshFaceIterator.next` calls driven by the stream `reqs` of buffer
capacity pairs, up to and including the first call that returns 0;
`fuel` bounds the number of calls. -/
def MeshFaceIterator.drainSum : Nat → MeshFaceIterator → (Nat → Nat × Nat) → Nat
  | 0, _, _ => 0
  | fuel + 1, it, reqs =>
    if (it.next (reqs 0).1 (reqs 0).2).1 = 0 then 0
    else (it.next (reqs 0).1 (reqs 0).2).1 +
      drainSum fuel (it.next (reqs 0).1 (reqs 0).2).2 (fun i => reqs (i + 1))

/-! ## Helper lemmas -/

/-- A bounded fill starting at or past the end writes nothing. -/
theorem boundedFill_of_le {total indexStart : Nat} (h : total ≤ indexStart)
    (count : Nat) : boundedFill total indexStart count = 0 := by
  simp [boundedFill, h]

/-- A bounded fill over zero entities writes nothing. -/
theorem boundedFill_zero (indexStart count : Nat) :
    boundedFill 0 indexStart count = 0 :=
  boundedFill_of_le (Nat.zero_le _) count

/-- A bounded fill whose request overruns the end writes exactly the
remaining tail. -/
theorem boundedFill_tail {total indexStart count : Nat}
    (h1 : indexStart < total) (h2 : total < indexStart + count) :
    boundedFill total indexStart count = total - indexStart := by
  unfold boundedFill
  rw [if_neg (Nat.not_le.2 h1)]
  exact Nat.min_eq_right (by omega)

/-- `Dataset.applyOp` never touches the validity flag (the header
declares no mutator for it). -/
theorem applyOp_isValid (d : Dataset) (op : DatasetOp) :
    (d.applyOp op).isValid = d.isValid := by
  cases op <;> rfl

/-- No sequence of declared `Dataset` operations touches the validity
flag. -/
theorem applyOps_isValid (ops : List DatasetOp) (d : Dataset) :
    (d.applyOps ops).isValid = d.isValid := by
  induction ops generalizing d with
  | nil => rfl
  | cons op rest ih =>
    calc (d.applyOps (op :: rest)).isValid
        = ((d.applyOp op).applyOps rest).isValid := rfl
      _ = (d.applyOp op).isValid := ih _
      _ = d.isValid := applyOp_isValid d op

/-! ## Claims -/

/-- A bounded fill over `n` entities satisfies the tail-truncation
contract at `n`. -/
theorem boundedFill_tailContract (n : Nat) : tailContract (boundedFill n) n :=
  fun _ count =>
    ⟨fun h => boundedFill_of_le h count, fun h1 h2 => boundedFill_tail h1 h2⟩

/-- C2 counterexample: not every buffer-fill operation truncates at
`valuesCount()`.  On a 2D dataset with 4 values, `scalarVolumesData(2,
10)` returns 0, not the tail `valuesCount() - 2 = 2`, although
`2 < valuesCount() < 2 + 10`; and on a 3D dataset with 10 volumes but 4
values, `scalarVolumesData(5, 2)` returns 2, not 0, although the start
index 5 is past `valuesCount()`. -/
theorem dataset_buffer_fill_counterexample :
    (2 < ({ valuesCount := 4 } : Dataset).valuesCount ∧
     ({ valuesCount := 4 } : Dataset).valuesCount < 2 + 10 ∧
     ({ valuesCount := 4 } : Dataset).scalarVolumesData 2 10 = 0 ∧
     ({ valuesCount := 4 } : Dataset).valuesCount - 2 ≠ 0) ∧
    (({ kind := DatasetKind.threeD 10 3 5, valuesCount := 4 } :
        Dataset).valuesCount ≤ 5 ∧
     ({ kind := DatasetKind.threeD 10 3 5, valuesCount := 4 } :
        Dataset).scalarVolumesData 5 2 ≠ 0) := by
  decide

/-- C2 (amended): every `Dataset` buffer-fill operation obeys the
tail-truncation contract at its own entity total — `indexStart` at or
past the total yields an `actualCount` of 0, and a request overrunning
the total from inside yields exactly the remaining tail.  The total is
`valuesCount()` for `scalarData` and `vectorData`, the per-face total
for `activeData` when the driver supports the active flag (an
unsupporting driver always returns 0), and the operation's own
volume-shaped extent for the five volume-shaped accessors. -/
theorem dataset_buffer_fill_per_extent (d : Dataset) :
    tailContract d.scalarData d.valuesCount ∧
    tailContract d.vectorData d.valuesCount ∧
    (d.supportsActiveFlag = true → tailContract d.activeData d.facesCount) ∧
    (d.supportsActiveFlag = false →
      ∀ indexStart count : Nat, d.activeData indexStart count = 0) ∧
    tailContract d.verticalLevelCountData d.columnsCount ∧
    tailContract d.verticalLevelData (d.volumesCount + d.columnsCount) ∧
    tailContract d.faceToVolumeData d.columnsCount ∧
    tailContract d.scalarVolumesData d.volumesCount ∧
    tailContract d.vectorVolumesData d.volumesCount := by
  refine ⟨boundedFill_tailContract _, boundedFill_tailContract _, ?_, ?_,
    boundedFill_tailContract _, boundedFill_tailContract _,
    boundedFill_tailContract _, boundedFill_tailContract _,
    boundedFill_tailContract _⟩
  · intro hs
    have ha : d.activeData = fun indexStart count =>
        boundedFill d.facesCount indexStart count := by
      funext indexStart count
      simp [Dataset.activeData, hs]
    rw [ha]
    exact boundedFill_tailContract d.facesCount
  · intro hs indexStart count
    simp [Dataset.activeData, hs]

/-- C2 witness: a 3D dataset with 4 values, 2 faces, 10 volumes, 5 face
columns and active-flag support — tail truncation and past-the-end reads
of each shape at concrete indices. -/
theorem dataset_buffer_fill_per_extent_witness :
    ({ valuesCount := 4, facesCount := 2, supportsActiveFlag := true,
       kind := DatasetKind.threeD 10 3 5 } : Dataset).scalarData 2 10 = 2 ∧
    ({ valuesCount := 4, facesCount := 2, supportsActiveFlag := true,
       kind := DatasetKind.threeD 10 3 5 } : Dataset).vectorData 5 3 = 0 ∧
    ({ valuesCount := 4, facesCount := 2, supportsActiveFlag := true,
       kind := DatasetKind.threeD 10 3 5 } : Dataset).activeData 1 5 = 1 ∧
    ({ valuesCount := 4, facesCount := 2, supportsActiveFlag := true,
       kind := DatasetKind.threeD 10 3 5 } : Dataset).scalarVolumesData 8 5 = 2 ∧
    ({ valuesCount := 4, facesCount := 2, supportsActiveFlag := true,
       kind := DatasetKind.threeD 10 3 5 } : Dataset).verticalLevelCountData 7 9
      = 0 := by
  have h := dataset_buffer_fill_per_extent
    { valuesCount := 4, facesCount := 2, supportsActiveFlag := true,
      kind := DatasetKind.threeD 10 3 5 }
  exact ⟨(h.1 2 10).2 (by decide) (by decide),
    (h.2.1 5 3).1 (by decide),
    ((h.2.2.1 rfl) 1 5).2 (by decide) (by decide),
    (h.2.2.2.2.2.2.2.1 8 5).2 (by decide) (by decide),
    (h.2.2.2.2.1 7 9).1 (by decide)⟩

/-- C3: every 2D dataset reports `volumesCount() = 0`,
`maximumVerticalLevelsCount() = 0`, and an `actualCount` of 0 from each
volume-shaped accessor at every `indexStart` and `count`. -/
theorem dataset2D_zero_volume_extent (d : Dataset)
    (h : d.kind = DatasetKind.twoD) :
    d.volumesCount = 0 ∧ d.maximumVerticalLevelsCount = 0 ∧
    ∀ indexStart count : Nat,
      d.verticalLevelCountData indexStart count = 0 ∧
      d.verticalLevelData indexStart count = 0 ∧
      d.faceToVolumeData indexStart count = 0 ∧
      d.scalarVolumesData indexStart count = 0 ∧
      d.vectorVolumesData indexStart count = 0 := by
  have hv : d.volumesCount = 0 := by simp [Dataset.volumesCount, h]
  have hc : d.columnsCount = 0 := by simp [Dataset.columnsCount, h]
  refine ⟨hv, by simp [Dataset.maximumVerticalLevelsCount, h], ?_⟩
  intro indexStart count
  simp [Dataset.verticalLevelCountData, Dataset.verticalLevelData,
    Dataset.faceToVolumeData, Dataset.scalarVolumesData,
    Dataset.vectorVolumesData, hv, hc, boundedFill_zero]

/-- C3 witness: a concrete 2D dataset with 4 values, probed at
`indexStart = 0`, `count = 7`. -/
theorem dataset2D_zero_volume_extent_witness :
    ({ valuesCount := 4 } : Dataset).volumesCount = 0 ∧
    ({ valuesCount := 4 } : Dataset).maximumVerticalLevelsCount = 0 ∧
    ({ valuesCount := 4 } : Dataset).verticalLevelCountData 0 7 = 0 ∧
    ({ valuesCount := 4 } : Dataset).scalarVolumesData 0 7 = 0 := by
  have h := dataset2D_zero_volume_extent { valuesCount := 4 } rfl
  exact ⟨h.1, h.2.1, (h.2.2 0 7).1, (h.2.2 0 7).2.2.2.1⟩

/-- C8: the validity flag is terminal-once-false — after any sequence of
the operations declared on `Dataset`, a dataset whose `isValid()` has
returned false still reports false. -/
theorem dataset_isValid_terminal (d : Dataset) (h : d.isValid = false)
    (ops : List DatasetOp) : (d.applyOps ops).isValid = false := by
  rw [applyOps_isValid, h]

/-- C8 witness: an invalid dataset stays invalid across a concrete
operation sequence. -/
theorem dataset_isValid_terminal_witness :
    (Dataset.applyOps { isValid := false }
      [DatasetOp.setTime 1, DatasetOp.setSupportsActiveFlag true,
       DatasetOp.setStatistics { minimum := some 0, maximum := some 2 }]).isValid
      = false :=
  dataset_isValid_terminal { isValid := false } rfl _

/-- C10: a freshly constructed `DatasetGroup` (either constructor),
before any mutating call, is not in edit mode, is scalar, and has data
location `DataOnVertices2D` — the header's in-class initializers. -/
theorem datasetGroup_fresh_defaults (driverName uri name : String) :
    (DatasetGroup.create driverName uri).isInEditMode = false ∧
    (DatasetGroup.create driverName uri).isScalar = true ∧
    (DatasetGroup.create driverName uri).dataLocation
      = MDAL_DataLocation.DataOnVertices2D ∧
    (DatasetGroup.createNamed driverName uri name).isInEditMode = false ∧
    (DatasetGroup.createNamed driverName uri name).isScalar = true ∧
    (DatasetGroup.createNamed driverName uri name).dataLocation
      = MDAL_DataLocation.DataOnVertices2D :=
  ⟨rfl, rfl, rfl, rfl, rfl, rfl⟩

/-- Reading back the key just written returns the value just written. -/
theorem getMetadata_setMetadata (md : Metadata) (k v : String) :
    getMetadata (setMetadata md k v) k = v := by
  induction md with
  | nil => simp [setMetadata, getMetadata]
  | cons p rest ih =>
    by_cases hp : p.1 = k
    · simp [setMetadata, getMetadata, hp]
    · simp [setMetadata, getMetadata, hp, ih]

/-- Writing the same key twice collapses to writing it once. -/
theorem setMetadata_setMetadata (md : Metadata) (k v v2 : String) :
    setMetadata (setMetadata md k v) k v2 = setMetadata md k v2 := by
  induction md with
  | nil => simp [setMetadata]
  | cons p rest ih =>
    by_cases hp : p.1 = k
    · simp [setMetadata, hp]
    · simp [setMetadata, hp, ih]

/-- The length of the metadata after an update does not depend on the
value written. -/
theorem setMetadata_length_congr (md : Metadata) (k v v2 : String) :
    (setMetadata md k v).length = (setMetadata md k v2).length := by
  induction md with
  | nil => rfl
  | cons p rest ih =>
    by_cases hp : p.1 = k
    · simp [setMetadata, hp]
    · simp [setMetadata, hp, ih]

/-- C5: `setMetadata(k, v)` then `getMetadata(k)` returns `v`; a
subsequent `setMetadata(k, v2)` replaces the value of the first pair
with key `k` in place (equals a single `setMetadata(k, v2)` on the
original sequence) and leaves the metadata length unchanged. -/
theorem metadata_set_get_roundtrip (md : Metadata) (k v v2 : String) :
    getMetadata (setMetadata md k v) k = v ∧
    setMetadata (setMetadata md k v) k v2 = setMetadata md k v2 ∧
    (setMetadata (setMetadata md k v) k v2).length
      = (setMetadata md k v).length := by
  refine ⟨getMetadata_setMetadata md k v, setMetadata_setMetadata md k v v2, ?_⟩
  rw [setMetadata_setMetadata md k v v2]
  exact (setMetadata_length_congr md k v v2).symm

/-- Datasets appended one by one end up, in order, after the datasets
already present. -/
theorem foldl_appendDataset_datasets (ds : List Dataset) (g : DatasetGroup) :
    (ds.foldl DatasetGroup.appendDataset g).datasets = g.datasets ++ ds := by
  induction ds generalizing g with
  | nil => simp
  | cons d rest ih =>
    calc (List.foldl DatasetGroup.appendDataset g (d :: rest)).datasets
        = (rest.foldl DatasetGroup.appendDataset (g.appendDataset d)).datasets := rfl
      _ = (g.appendDataset d).datasets ++ rest := ih _
      _ = g.datasets ++ d :: rest := by simp [DatasetGroup.appendDataset]

/-- C4: after `startEditing()`, any number of dataset appends, and
`stopEditing()`, the group is out of edit mode, holds the original
datasets followed by all appended ones, and its `statistics()` is the
min-of-minima / max-of-maxima aggregate over the statistics of exactly
the datasets contained when `stopEditing()` was called. -/
theorem datasetGroup_edit_roundtrip (g : DatasetGroup) (ds : List Dataset) :
    ((ds.foldl DatasetGroup.appendDataset g.startEditing).stopEditing).isInEditMode
      = false ∧
    ((ds.foldl DatasetGroup.appendDataset g.startEditing).stopEditing).datasets
      = g.datasets ++ ds ∧
    ((ds.foldl DatasetGroup.appendDataset g.startEditing).stopEditing).statistics
      = aggregateStatistics
          (((ds.foldl DatasetGroup.appendDataset g.startEditing).datasets).map
            Dataset.statistics) := by
  refine ⟨rfl, ?_, rfl⟩
  exact foldl_appendDataset_datasets ds g.startEditing

/-- A successful linear scan returns a matching group preceded only by
non-matching groups. -/
theorem firstNamed_some {l : List DatasetGroup} {n : String} {g : DatasetGroup}
    (h : firstNamed l n = some g) :
    g.name = n ∧ ∃ pre post, l = pre ++ g :: post ∧ ∀ g2 ∈ pre, g2.name ≠ n := by
  induction l with
  | nil => simp [firstNamed] at h
  | cons a rest ih =>
    by_cases ha : a.name = n
    · rw [firstNamed, if_pos ha] at h
      cases h
      exact ⟨ha, [], rest, rfl, by simp⟩
    · rw [firstNamed, if_neg ha] at h
      obtain ⟨hg, pre, post, hl, hpre⟩ := ih h
      refine ⟨hg, a :: pre, post, by simp [hl], ?_⟩
      intro g2 hg2
      rcases List.mem_cons.1 hg2 with h2 | h2
      · exact h2 ▸ ha
      · exact hpre g2 h2

/-- A linear scan over a list with no matching name misses. -/
theorem firstNamed_none {l : List DatasetGroup} {n : String}
    (h : ∀ g ∈ l, g.name ≠ n) : firstNamed l n = none := by
  induction l with
  | nil => rfl
  | cons a rest ih =>
    rw [firstNamed, if_neg (h a (by simp))]
    exact ih fun g hg => h g (List.mem_cons_of_mem a hg)

/-- A linear scan finds the matching group sitting after a prefix of
non-matching groups. -/
theorem firstNamed_prefix_match (pre : List DatasetGroup) (g : DatasetGroup)
    (post : List DatasetGroup) (n : String) (hg : g.name = n)
    (hpre : ∀ g2 ∈ pre, g2.name ≠ n) :
    firstNamed (pre ++ g :: post) n = some g := by
  induction pre with
  | nil => simp [firstNamed, hg]
  | cons a rest ih =>
    rw [List.cons_append, firstNamed, if_neg (hpre a (by simp))]
    exact ih fun g2 h2 => hpre g2 (List.mem_cons_of_mem a h2)

/-- C6: `group(name)` scans `datasetGroups` in insertion order and
returns the first group whose name matches: whenever the sequence splits
as a prefix of non-matching groups followed by a matching group, that
group is returned; conversely any hit is a group with the requested name
all of whose predecessors have a different name; and a miss (including
on a mesh with no dataset groups at all) yields the absence indicator
`none`. -/
theorem mesh_group_first_match (m : Mesh) (name : String) :
    (∀ pre g post, m.datasetGroups = pre ++ g :: post → g.name = name →
      (∀ g2 ∈ pre, g2.name ≠ name) → m.group name = some g) ∧
    (∀ g, m.group name = some g → g.name = name ∧
      ∃ pre post, m.datasetGroups = pre ++ g :: post ∧
        ∀ g2 ∈ pre, g2.name ≠ name) ∧
    ((∀ g ∈ m.datasetGroups, g.name ≠ name) → m.group name = none) ∧
    (m.datasetGroups = [] → m.group name = none) := by
  refine ⟨fun pre g post hl hg hpre => ?_, fun g h => firstNamed_some h,
    fun h => firstNamed_none h, fun h => ?_⟩
  · unfold Mesh.group
    rw [hl]
    exact firstNamed_prefix_match pre g post name hg hpre
  · unfold Mesh.group
    rw [h]
    rfl

/-- C6 witness: on a mesh holding groups named "a", "b", "b" in that
order, looking up "b" returns the first-inserted "b" group; looking up a
name on a mesh with zero dataset groups returns the absence
indicator. -/
theorem mesh_group_first_match_witness :
    Mesh.group
      { datasetGroups := [DatasetGroup.createNamed "drv" "u1" "a",
                          DatasetGroup.createNamed "drv" "u2" "b",
                          DatasetGroup.createNamed "drv" "u3" "b"] } "b"
      = some (DatasetGroup.createNamed "drv" "u2" "b") ∧
    Mesh.group { } "missing" = none := by
  refine ⟨?_, (mesh_group_first_match { } "missing").2.2.2 rfl⟩
  exact (mesh_group_first_match
      { datasetGroups := [DatasetGroup.createNamed "drv" "u1" "a",
                          DatasetGroup.createNamed "drv" "u2" "b",
                          DatasetGroup.createNamed "drv" "u3" "b"] } "b").1
    [DatasetGroup.createNamed "drv" "u1" "a"]
    (DatasetGroup.createNamed "drv" "u2" "b")
    [DatasetGroup.createNamed "drv" "u3" "b"]
    rfl rfl (by decide)

/-- Draining a vertex iterator with positive buffer capacities and
enough calls streams exactly the remaining vertex total. -/
theorem vertex_drainSum_eq (fuel : Nat) (it : MeshVertexIterator)
    (reqs : Nat → Nat) (hreqs : ∀ i, 0 < reqs i)
    (hfuel : it.remaining < fuel) :
    MeshVertexIterator.drainSum fuel it reqs = it.remaining := by
  induction fuel generalizing it reqs with
  | zero => omega
  | succ fuel ih =>
    rw [MeshVertexIterator.drainSum]
    have h1 : (it.next (reqs 0)).1 = min (reqs 0) it.remaining := rfl
    have h2 : (it.next (reqs 0)).2
        = ⟨it.remaining - min (reqs 0) it.remaining⟩ := rfl
    rw [h1, h2]
    rcases Nat.eq_zero_or_pos it.remaining with h0 | h0
    · simp [h0]
    · have hm : 0 < min (reqs 0) it.remaining := lt_min (hreqs 0) h0
      rw [if_neg (Nat.pos_iff_ne_zero.mp hm)]
      have hfe : (⟨it.remaining - min (reqs 0) it.remaining⟩ :
          MeshVertexIterator).remaining < fuel := by
        show it.remaining - min (reqs 0) it.remaining < fuel
        omega
      rw [ih _ (fun i => reqs (i + 1)) (fun i => hreqs (i + 1)) hfe]
      show min (reqs 0) it.remaining + (it.remaining - min (reqs 0) it.remaining)
        = it.remaining
      omega

/-- Draining a face iterator with positive offsets-buffer capacities and
enough calls streams exactly the remaining face total. -/
theorem face_drainSum_eq (fuel : Nat) (it : MeshFaceIterator)
    (reqs : Nat → Nat × Nat) (hreqs : ∀ i, 0 < (reqs i).1)
    (hfuel : it.remaining < fuel) :
    MeshFaceIterator.drainSum fuel it reqs = it.remaining := by
  induction fuel generalizing it reqs with
  | zero => omega
  | succ fuel ih =>
    rw [MeshFaceIterator.drainSum]
    have h1 : (it.next (reqs 0).1 (reqs 0).2).1
        = min (reqs 0).1 it.remaining := rfl
    have h2 : (it.next (reqs 0).1 (reqs 0).2).2
        = ⟨it.remaining - min (reqs 0).1 it.remaining⟩ := rfl
    rw [h1, h2]
    rcases Nat.eq_zero_or_pos it.remaining with h0 | h0
    · simp [h0]
    · have hm : 0 < min (reqs 0).1 it.remaining := lt_min (hreqs 0) h0
      rw [if_neg (Nat.pos_iff_ne_zero.mp hm)]
      have hfe : (⟨it.remaining - min (reqs 0).1 it.remaining⟩ :
          MeshFaceIterator).remaining < fuel := by
        show it.remaining - min (reqs 0).1 it.remaining < fuel
        omega
      rw [ih _ (fun i => reqs (i + 1)) (fun i => hreqs (i + 1)) hfe]
      show min (reqs 0).1 it.remaining +
        (it.remaining - min (reqs 0).1 it.remaining) = it.remaining
      omega

/-- C1: for iterators obtained from a mesh whose driver does not fail,
the sum of the `actualCount` values returned by successive `next()`
calls, up to and including the first call that returns 0, equals the
mesh's declared entity total — `verticesCount()` for the vertex
iterator, `facesCount()` for the face iterator (caller buffers have
positive capacity and the call budget exceeds the entity total, so the
exhausting call is reached). -/
theorem mesh_iterator_sum (m : Mesh) (vreqs : Nat → Nat)
    (freqs : Nat → Nat × Nat) (vfuel ffuel : Nat)
    (hv : ∀ i, 0 < vreqs i) (hf : ∀ i, 0 < (freqs i).1)
    (hvf : m.verticesCount < vfuel) (hff : m.facesCount < ffuel) :
    MeshVertexIterator.drainSum vfuel m.readVertices vreqs = m.verticesCount ∧
    MeshFaceIterator.drainSum ffuel m.readFaces freqs = m.facesCount :=
  ⟨vertex_drainSum_eq vfuel m.readVertices vreqs hv hvf,
   face_drainSum_eq ffuel m.readFaces freqs hf hff⟩

/-- C1 witness: a mesh with 5 vertices and 3 faces, streamed in chunks
of 2. -/
theorem mesh_iterator_sum_witness :
    MeshVertexIterator.drainSum 6
      (Mesh.readVertices { verticesCount := 5, facesCount := 3 })
      (fun _ => 2) = 5 ∧
    MeshFaceIterator.drainSum 4
      (Mesh.readFaces { verticesCount := 5, facesCount := 3 })
      (fun _ => (2, 18)) = 3 :=
  mesh_iterator_sum { verticesCount := 5, facesCount := 3 }
    (fun _ => 2) (fun _ => (2, 18)) 6 4
    (fun _ => Nat.zero_lt_two) (fun _ => Nat.zero_lt_two) (by decide) (by decide)

/-- `Statistics.consistent` spelled out over the option fields. -/
theorem consistent_iff (s : Statistics) :
    s.consistent ↔ ∀ a b, s.minimum = some a → s.maximum = some b → a ≤ b := by
  unfold Statistics.consistent
  cases hm : s.minimum <;> cases hM : s.maximum <;> simp

/-- A statistics record with both fields set and an ordered pair is
consistent. -/
theorem consistent_mk {x y : ℚ} (h : x ≤ y) :
    Statistics.consistent { minimum := some x, maximum := some y } := h

/-- The min-of-minima / max-of-maxima aggregate preserves saturation and
the minimum-below-maximum invariant of its inputs. -/
theorem aggregateStatistics_preserves (l : List Statistics)
    (h : ∀ s ∈ l, s.saturated ∧ s.consistent) :
    (aggregateStatistics l).saturated ∧ (aggregateStatistics l).consistent := by
  induction l with
  | nil => exact ⟨Iff.rfl, trivial⟩
  | cons s rest ih =>
    obtain ⟨hsat, hcon⟩ := h s (List.mem_cons_self s rest)
    obtain ⟨rsat, rcon⟩ := ih fun t ht => h t (List.mem_cons_of_mem s ht)
    cases hm : s.minimum with
    | none =>
      have hM : s.maximum = none := hsat.mp hm
      have hagg : aggregateStatistics (s :: rest) = aggregateStatistics rest := by
        show ({ minimum := optMin s.minimum (aggregateStatistics rest).minimum,
                maximum := optMax s.maximum (aggregateStatistics rest).maximum }
              : Statistics) = aggregateStatistics rest
        rw [hm, hM]
        rfl
      rw [hagg]
      exact ⟨rsat, rcon⟩
    | some a =>
      cases hM : s.maximum with
      | none => exact absurd (hsat.mpr hM) (by simp [hm])
      | some b =>
        have hab : a ≤ b := (consistent_iff s).mp hcon a b hm hM
        cases hrm : (aggregateStatistics rest).minimum with
        | none =>
          have hrM : (aggregateStatistics rest).maximum = none := rsat.mp hrm
          have hagg : aggregateStatistics (s :: rest)
              = { minimum := some a, maximum := some b } := by
            show ({ minimum := optMin s.minimum (aggregateStatistics rest).minimum,
                    maximum := optMax s.maximum (aggregateStatistics rest).maximum }
                  : Statistics) = _
            rw [hm, hM, hrm, hrM]
            rfl
          rw [hagg]
          exact ⟨by simp [Statistics.saturated], consistent_mk hab⟩
        | some c =>
          cases hrM : (aggregateStatistics rest).maximum with
          | none => exact absurd (rsat.mpr hrM) (by simp [hrm])
          | some d =>
            have hcd : c ≤ d :=
              (consistent_iff (aggregateStatistics rest)).mp rcon c d hrm hrM
            have hagg : aggregateStatistics (s :: rest)
                = { minimum := some (min a c), maximum := some (max b d) } := by
              show ({ minimum := optMin s.minimum (aggregateStatistics rest).minimum,
                      maximum := optMax s.maximum (aggregateStatistics rest).maximum }
                    : Statistics) = _
              rw [hm, hM, hrm, hrM]
              rfl
            rw [hagg]
            refine ⟨by simp [Statistics.saturated], consistent_mk ?_⟩
            calc min a c ≤ a := min_le_left a c
              _ ≤ b := hab
              _ ≤ max b d := le_max_left b d

/-- C7 counterexample: the model enforces no ordering on stored
statistics — a driver storing `{minimum = 5, maximum = 1}` through
`setStatistics` makes `statistics()` return a value with both fields set
whose minimum exceeds its maximum. -/
theorem statistics_minmax_counterexample :
    (Dataset.applyOps { } [DatasetOp.setStatistics
        { minimum := some 5, maximum := some 1 }]).statistics.minimum = some 5 ∧
    (Dataset.applyOps { } [DatasetOp.setStatistics
        { minimum := some 5, maximum := some 1 }]).statistics.maximum = some 1 ∧
    ¬ (Dataset.applyOps { } [DatasetOp.setStatistics
        { minimum := some 5, maximum := some 1 }]).statistics.consistent := by
  refine ⟨rfl, rfl, fun hcon => ?_⟩
  have h51 : (5 : ℚ) ≤ 1 := hcon
  norm_num at h51

/-- C7 (amended): the statistics the model itself computes respect the
invariant — whenever every dataset of a group carries statistics with
both fields set or both unset and minimum below maximum, the aggregate
that `stopEditing()` installs as the group's `statistics()` again has
minimum below maximum (and both fields set or both unset). -/
theorem datasetGroup_statistics_minmax (g : DatasetGroup)
    (h : ∀ d ∈ g.datasets,
      (Dataset.statistics d).saturated ∧ (Dataset.statistics d).consistent) :
    (g.stopEditing).statistics.consistent ∧
    (g.stopEditing).statistics.saturated := by
  have hall : ∀ s ∈ g.datasets.map Dataset.statistics,
      s.saturated ∧ s.consistent := by
    intro s hs
    obtain ⟨d, hd, rfl⟩ := List.mem_map.1 hs
    exact h d hd
  have := aggregateStatistics_preserves (g.datasets.map Dataset.statistics) hall
  exact ⟨this.2, this.1⟩

/-- C7 witness: a group holding one dataset with statistics [1, 4] and
one with unset statistics; the recomputed aggregate is consistent. -/
theorem datasetGroup_statistics_minmax_witness :
    ((DatasetGroup.appendDataset
        (DatasetGroup.appendDataset (DatasetGroup.create "drv" "uri")
          { statistics := { minimum := some 1, maximum := some 4 } })
        { statistics := { } }).stopEditing).statistics.consistent ∧
    ((DatasetGroup.appendDataset
        (DatasetGroup.appendDataset (DatasetGroup.create "drv" "uri")
          { statistics := { minimum := some 1, maximum := some 4 } })
        { statistics := { } }).stopEditing).statistics.saturated :=
  datasetGroup_statistics_minmax _ (by decide)

/-- C9 counterexample: `dataLocation()` is not fixed for the group's
lifetime — the declared `setDataLocation` operation changes it on a
freshly constructed group. -/
theorem dataLocation_mutable_counterexample :
    (DatasetGroup.applyOps (DatasetGroup.create "drv" "uri")
        [GroupOp.setDataLocation MDAL_DataLocation.DataOnFaces2D]).dataLocation
      = MDAL_DataLocation.DataOnFaces2D ∧
    (DatasetGroup.create "drv" "uri").dataLocation
      = MDAL_DataLocation.DataOnVertices2D ∧
    MDAL_DataLocation.DataOnFaces2D ≠ MDAL_DataLocation.DataOnVertices2D :=
  ⟨rfl, rfl, by decide⟩

/-- C9 (amended): every operation on a `DatasetGroup` other than the
`setDataLocation` setter itself preserves the value returned by
`dataLocation()` — the location is a frame-invariant of metadata
updates, renaming, scalar-flag and statistics setters, dataset appends,
and the edit-mode transitions. -/
theorem dataLocation_frame (g : DatasetGroup) (ops : List GroupOp)
    (h : ∀ op ∈ ops, op.isSetDataLocation = false) :
    (g.applyOps ops).dataLocation = g.dataLocation := by
  induction ops generalizing g with
  | nil => rfl
  | cons op rest ih =>
    have hop : op.isSetDataLocation = false := h op (List.mem_cons_self op rest)
    have hstep : (g.applyOp op).dataLocation = g.dataLocation := by
      cases op <;> first
        | rfl
        | simp [GroupOp.isSetDataLocation] at hop
    calc (g.applyOps (op :: rest)).dataLocation
        = ((g.applyOp op).applyOps rest).dataLocation := rfl
      _ = (g.applyOp op).dataLocation :=
          ih _ fun o ho => h o (List.mem_cons_of_mem op ho)
      _ = g.dataLocation := hstep

/-- C9 witness: a concrete operation sequence without `setDataLocation`
leaves the location at its initial `DataOnVertices2D`. -/
theorem dataLocation_frame_witness :
    (DatasetGroup.applyOps (DatasetGroup.create "drv" "uri")
      [GroupOp.setName "renamed", GroupOp.startEditing,
       GroupOp.appendDataset { }, GroupOp.stopEditing]).dataLocation
      = (DatasetGroup.create "drv" "uri").dataLocation :=
  dataLocation_frame _ _ (by decide)

end MDAL
